import Mathlib

/-!
Verification of the Policy-Insights dashboard (`app.py`).

The application is a single-file Streamlit dashboard.  Its core is:
a query log persisted as a CSV file (`save_query` / `pd.read_csv`),
a prompt/answer pipeline (`ask_ai` wrapping a remote completion call),
PDF text extraction, and two button handlers that glue these together.

The file state of `queries.csv` is modelled as its sequence of data rows
(`List QueryRecord`); an absent file is `none`.  Timestamps are abstract
instants (`Nat`).  The remote completion endpoint is modelled as a function
from the prompt to either a completion string or a raised exception message.
-/

/-- One data row of `queries.csv`: `[datetime.now(), context, q, a]`
(app.py line 141). -/
structure QueryRecord where
  timestamp : Nat
  context : String
  question : String
  answer : String
deriving Repr, DecidableEq

/-- Result of the remote call `client.chat.completions.create(...)` inside
`ask_ai` (app.py lines 127-134): either the completion content
`res.choices[0].message.content`, or a raised exception whose `str` is `e`. -/
inductive CompletionResult where
  | ok (content : String)
  | error (e : String)
deriving Repr, DecidableEq

/-- `ask_ai(prompt)` (app.py lines 125-137): issue the remote call; on success
return the content unchanged, on any exception return the formatted string
`f"⚠️ Error: \x7be\x7d"`.  The function is total: no exception escapes. -/
def ask_ai (endpoint : String → CompletionResult) (prompt : String) : String :=
  match endpoint prompt with
  | CompletionResult.ok content => content
  | CompletionResult.error e => "⚠️ Error: " ++ e

/-- `save_query(context, q, a)` (app.py lines 139-142): read the whole file,
set `df.loc[len(df)]` to the new row (i.e. append one row at the end), and
rewrite the whole file. -/
def save_query (now : Nat) (rows : List QueryRecord) (context q a : String) :
    List QueryRecord :=
  rows ++ [⟨now, context, q, a⟩]

/-- `pd.read_csv(QUERY_FILE)` on an existing file (app.py lines 140, 230, 250):
reads the entire file into memory. -/
def load (rows : List QueryRecord) : List QueryRecord := rows

/-- The data rows of the query file; an absent file holds none. -/
def logRows : Option (List QueryRecord) → List QueryRecord
  | none => []
  | some rows => rows

/-- The operations of the program that touch `queries.csv`. -/
inductive LogOp where
  | startup
  | read
  | save (now : Nat) (context q a : String)
deriving Repr

/-- Effect of each program operation on the query file.
`startup` is app.py lines 47-49: if the file does not exist, create it with
header only (zero rows); otherwise leave it alone.  `read` is any
`pd.read_csv` (analytics, FAQs): no write.  `save` is `save_query`, which the
program only reaches after startup has ensured the file exists. -/
def applyOp : Option (List QueryRecord) → LogOp → Option (List QueryRecord)
  | none, LogOp.startup => some []
  | some rows, LogOp.startup => some rows
  | file, LogOp.read => file
  | file, LogOp.save now c q a => some (save_query now (logRows file) c q a)

/-- `len(df)` shown as the "Total Questions" metric (app.py line 234). -/
def totalQuestions (rows : List QueryRecord) : Nat := rows.length

/-- `df["context"].nunique()` shown as the "Unique Policies" metric
(app.py line 235): the number of distinct context values. -/
def uniquePolicies (rows : List QueryRecord) : Nat :=
  ((rows.map (fun r => r.context)).eraseDups).length

/-- Python `content[:5000]` (app.py line 210): the first 5000 characters. -/
def contextSlice (content : String) : String := String.mk (content.data.take 5000)

/-- The f-string prompt of app.py line 210:
`f"Policy Document:\n\x7bcontent[:5000]\x7d\n\nQuestion: \x7bq\x7d"`. -/
def buildPrompt (content q : String) : String :=
  "Policy Document:\n" ++ contextSlice content ++ "\n\nQuestion: " ++ q

/-- The list comprehension of app.py line 202 joined with newlines:
`"\n".join([p.extract_text() for p in reader.pages if p.extract_text()])`.
`pages` is the per-page result of `extract_text()` in document order; a page
whose text is the empty string is falsy in Python and is filtered out. -/
def extract_content (pages : List String) : String :=
  String.intercalate "\n" (pages.filter (fun t => t != ""))

/-- A transiently uploaded PDF (app.py line 192): its `.name` and raw bytes. -/
structure UploadedFile where
  name : String
  bytes : List Nat
deriving Repr, DecidableEq

/-- `chosen = uploaded if uploaded else (selected if selected != "None" else None)`
(app.py line 197).  An uploaded file object is always truthy. -/
inductive Chosen where
  | fromUpload (f : UploadedFile)
  | fromStored (name : String)
deriving Repr, DecidableEq

def chosen (uploaded : Option UploadedFile) (selected : String) : Option Chosen :=
  match uploaded with
  | some u => some (Chosen.fromUpload u)
  | none => if selected != "None" then some (Chosen.fromStored selected) else none

/-- The byte source handed to `PdfReader` (app.py line 201):
`uploaded if uploaded else open(os.path.join(POLICY_DIR, selected), "rb")`. -/
inductive PdfSource where
  | uploadStream (f : UploadedFile)
  | storedFile (path : String)
deriving Repr, DecidableEq

def readerSource (uploaded : Option UploadedFile) (selected : String) : PdfSource :=
  match uploaded with
  | some u => PdfSource.uploadStream u
  | none => PdfSource.storedFile ("policies/" ++ selected)

/-- The context argument of app.py line 213:
`selected if not uploaded else uploaded.name`. -/
def saveContext (uploaded : Option UploadedFile) (selected : String) : String :=
  match uploaded with
  | some u => u.name
  | none => selected

/-- Outcome of `PdfReader(...)` plus the page extraction on app.py lines
201-202: either the per-page texts, or an exception caught by the bare
`except` of line 203. -/
inductive ReadOutcome where
  | ok (pages : List String)
  | readError
deriving Repr

/-- An uncaught Python runtime error that ends the script run. -/
inductive PyError where
  | nameError (name : String)
deriving Repr, DecidableEq

/-- What the Upload-or-Choose flow produces once the Ask-AI button is pressed
(app.py lines 199-213). -/
structure UploadFlowResult where
  errorMessageShown : Bool
  remoteCalled : Bool
  askResult : Except PyError (String × List QueryRecord)
deriving Repr

/-- The Upload-or-Choose-and-Ask handler (app.py lines 199-213) for a script
run in which `chosen` is truthy and the Ask-AI button is pressed with
question `q`.  On a successful read, `content` is bound, the prompt of line
210 is sent, and `save_query` appends the row.  On a read failure the bare
`except` shows "Could not read PDF." and execution continues, so line 210
evaluates `content[:5000]` with `content` never assigned: an uncaught
`NameError` — the remote call is never reached. -/
def uploadAsk_handler (endpoint : String → CompletionResult) (now : Nat)
    (read : ReadOutcome) (uploaded : Option UploadedFile) (selected : String)
    (q : String) (rows : List QueryRecord) : UploadFlowResult :=
  match read with
  | ReadOutcome.ok pages =>
      let content := extract_content pages
      let ans := ask_ai endpoint (buildPrompt content q)
      { errorMessageShown := false
      , remoteCalled := true
      , askResult := Except.ok
          (ans, save_query now rows (saveContext uploaded selected) q ans) }
  | ReadOutcome.readError =>
      { errorMessageShown := true
      , remoteCalled := false
      , askResult := Except.error (PyError.nameError "content") }

/-- What the Ask-Policy-AI button handler produces (app.py lines 220-224). -/
structure AskFlowResult where
  remoteCalled : Bool
  answer : String
  rows : List QueryRecord
deriving Repr

/-- The Ask-Policy-AI handler (app.py lines 220-224) for a script run in which
the Ask button is pressed with question `q`: it unconditionally calls
`ask_ai(q)` and then `save_query("General", q, ans)` — there is no check that
`q` is non-empty. -/
def askPolicyAI_handler (endpoint : String → CompletionResult) (now : Nat)
    (q : String) (rows : List QueryRecord) : AskFlowResult :=
  let ans := ask_ai endpoint q
  { remoteCalled := true
  , answer := ans
  , rows := save_query now rows "General" q ans }

/-- Modelled from the spec: the "left/right-trimmed" completion output the
spec describes for the pipeline (drop leading and trailing whitespace
characters); to be compared with what `ask_ai` actually returns. -/
def trimmedPerSpec (s : String) : String :=
  String.mk (((s.data.dropWhile Char.isWhitespace).reverse.dropWhile
    Char.isWhitespace).reverse)

theorem take_length_append (l₁ l₂ : List QueryRecord) :
    (l₁ ++ l₂).take l₁.length = l₁ := by
  induction l₁ with
  | nil => simp
  | cons a l ih => simp [ih]

/-- Claim C1: appending a record with `save_query` and then immediately
loading the file yields a log whose last row is the appended record — same
context, question and answer (the timestamp is the abstract instant of the
append). -/
theorem append_then_load_last_row (rows : List QueryRecord) (now : Nat)
    (context q a : String) (hq : q ≠ "") :
    ∃ r, (load (save_query now rows context q a)).getLast? = some r ∧
      r.context = context ∧ r.question = q ∧ r.answer = a := by
  refine ⟨⟨now, context, q, a⟩, ?_, rfl, rfl, rfl⟩
  simp [load, save_query]

theorem append_then_load_last_row_witness :
    ∃ r, (load (save_query 0 [] "policy.pdf" "q?" "ans")).getLast? = some r ∧
      r.context = "policy.pdf" ∧ r.question = "q?" ∧ r.answer = "ans" :=
  append_then_load_last_row [] 0 "policy.pdf" "q?" "ans" (by decide)

/-- Claim C2: whenever the remote completion call raises any exception,
`ask_ai` returns the plain string `"⚠️ Error: "` followed by the exception
text; being a total function into `String`, it never propagates the error. -/
theorem ask_ai_catches_errors (endpoint : String → CompletionResult)
    (prompt e : String) (h : endpoint prompt = CompletionResult.error e) :
    ask_ai endpoint prompt = "⚠️ Error: " ++ e := by
  simp [ask_ai, h]

theorem ask_ai_catches_errors_witness :
    ask_ai (fun _ => CompletionResult.error "401 unauthorized") "hello" =
      "⚠️ Error: " ++ "401 unauthorized" :=
  ask_ai_catches_errors (fun _ => CompletionResult.error "401 unauthorized")
    "hello" "401 unauthorized" rfl

/-- Claim C3 counterexample: with a blank question, the Ask-Policy-AI handler
still calls the remote endpoint and still appends a query-log row — the
claimed rejection does not exist in the code. -/
theorem blank_question_not_rejected_cex :
    (askPolicyAI_handler (fun _ => CompletionResult.ok "ans") 0 "" []).remoteCalled
      = true ∧
    (askPolicyAI_handler (fun _ => CompletionResult.ok "ans") 0 "" []).rows ≠ [] := by
  exact ⟨rfl, by decide⟩

/-- Claim C3 as amended: blank questions are not rejected.  Both button
handlers treat the empty question exactly like any other: the Ask-Policy-AI
handler calls the endpoint and appends a row with the blank question, and the
Upload-or-Choose handler (after a successful read) does the same. -/
theorem blank_question_handled_like_any (endpoint : String → CompletionResult)
    (now : Nat) (rows : List QueryRecord) (pages : List String)
    (uploaded : Option UploadedFile) (selected : String) :
    (askPolicyAI_handler endpoint now "" rows).remoteCalled = true ∧
    (askPolicyAI_handler endpoint now "" rows).rows =
      rows ++ [⟨now, "General", "", ask_ai endpoint ""⟩] ∧
    (uploadAsk_handler endpoint now (ReadOutcome.ok pages) uploaded selected ""
      rows).remoteCalled = true ∧
    (uploadAsk_handler endpoint now (ReadOutcome.ok pages) uploaded selected ""
      rows).askResult =
      Except.ok (ask_ai endpoint (buildPrompt (extract_content pages) ""),
        rows ++ [⟨now, saveContext uploaded selected, "",
          ask_ai endpoint (buildPrompt (extract_content pages) "")⟩]) :=
  ⟨rfl, rfl, rfl, rfl⟩

/-- Claim C4: when the PDF read fails, the user-facing message is shown, but
pressing Ask-AI afterwards does NOT proceed safely: line 210 evaluates
`content[:5000]` with `content` never assigned, so the script run dies with an
uncaught `NameError` (and the remote call is never made).  This contradicts
the claim's "does not raise an unhandled error". -/
theorem read_failure_then_ask_crashes (endpoint : String → CompletionResult)
    (now : Nat) (uploaded : Option UploadedFile) (selected q : String)
    (rows : List QueryRecord) :
    (uploadAsk_handler endpoint now ReadOutcome.readError uploaded selected q
      rows).errorMessageShown = true ∧
    (uploadAsk_handler endpoint now ReadOutcome.readError uploaded selected q
      rows).askResult = Except.error (PyError.nameError "content") ∧
    (uploadAsk_handler endpoint now ReadOutcome.readError uploaded selected q
      rows).remoteCalled = false :=
  ⟨rfl, rfl, rfl⟩

/-- Claim C5: the context embedded in the prompt of line 210 is exactly the
first 5000 characters of the extracted text (a hard cut: its length is
`min 5000` the text's length, and text of at most 5000 characters passes
through unchanged). -/
theorem prompt_context_truncation (content q : String) :
    buildPrompt content q =
      "Policy Document:\n" ++ String.mk (content.data.take 5000) ++
        "\n\nQuestion: " ++ q ∧
    (contextSlice content).data = content.data.take 5000 ∧
    (contextSlice content).data.length = min 5000 content.data.length ∧
    (content.data.length ≤ 5000 ↔ contextSlice content = content) := by
  refine ⟨rfl, rfl, by simp [contextSlice], ?_⟩
  constructor
  · intro h
    show String.mk (content.data.take 5000) = content
    rw [List.take_of_length_le h]
  · intro h
    have hd : content.data.take 5000 = content.data := congrArg String.data h
    have hlen := congrArg List.length hd
    rw [List.length_take] at hlen
    omega

theorem prompt_context_truncation_witness :
    buildPrompt "hi" "q?" =
      "Policy Document:\n" ++ String.mk ("hi".data.take 5000) ++
        "\n\nQuestion: " ++ "q?" ∧
    (contextSlice "hi").data = "hi".data.take 5000 ∧
    (contextSlice "hi").data.length = min 5000 "hi".data.length ∧
    ("hi".data.length ≤ 5000 ↔ contextSlice "hi" = "hi") :=
  prompt_context_truncation "hi" "q?"

/-- Claim C6: the extracted document text is the page texts in document order
joined with newline separators; a page yielding no text is skipped entirely
(prepending it changes nothing), and if no page yields text the result is the
empty string. -/
theorem extract_pages_joined (pages : List String) :
    extract_content pages =
      String.intercalate "\n" (pages.filter (fun t => t != "")) ∧
    extract_content ("" :: pages) = extract_content pages ∧
    ((∀ t ∈ pages, t = "") → extract_content pages = "") := by
  refine ⟨rfl, by simp [extract_content], ?_⟩
  intro h
  have hnil : pages.filter (fun t => t != "") = [] := by
    rw [List.filter_eq_nil_iff]
    intro a ha
    simp [h a ha]
  show String.intercalate "\n" (pages.filter (fun t => t != "")) = ""
  rw [hnil]
  rfl

theorem extract_pages_joined_witness :
    (extract_content ["", ""] =
      String.intercalate "\n" (List.filter (fun t => t != "") ["", ""]) ∧
     extract_content ("" :: ["", ""]) = extract_content ["", ""] ∧
     extract_content ["", ""] = "") :=
  ⟨(extract_pages_joined ["", ""]).1, (extract_pages_joined ["", ""]).2.1,
    (extract_pages_joined ["", ""]).2.2 (by decide)⟩

/-- Claim C7 counterexample: `ask_ai` returns
`res.choices[0].message.content` without any `.strip()`, so a completion
text with surrounding whitespace is NOT returned trimmed as the claim
states. -/
theorem trimmed_output_cex :
    ask_ai (fun _ => CompletionResult.ok " padded ") "q" ≠
      trimmedPerSpec " padded " := by
  decide

/-- Claim C7 as amended: on a successful completion call the pipeline's
output is the completion text exactly as returned by the endpoint, with no
whitespace trimming. -/
theorem output_returned_unchanged (endpoint : String → CompletionResult)
    (prompt content : String)
    (h : endpoint prompt = CompletionResult.ok content) :
    ask_ai endpoint prompt = content := by
  simp [ask_ai, h]

theorem output_returned_unchanged_witness :
    ask_ai (fun _ => CompletionResult.ok " padded ") "q" = " padded " :=
  output_returned_unchanged (fun _ => CompletionResult.ok " padded ") "q"
    " padded " rfl

/-- Claim C8: `save_query` keeps every existing row unchanged and in place
(the new log restricted to the old length is the old log), adds exactly one
row, and every operation of the program on the query file (startup, read,
save) preserves the existing rows as an initial segment and never shrinks
the row count. -/
theorem append_only_frame (file : Option (List QueryRecord)) (op : LogOp)
    (rows : List QueryRecord) (now : Nat) (c q a : String) :
    (save_query now rows c q a).take rows.length = rows ∧
    (save_query now rows c q a).length = rows.length + 1 ∧
    ((logRows (applyOp file op)).take (logRows file).length = logRows file ∧
     (logRows file).length ≤ (logRows (applyOp file op)).length) := by
  refine ⟨take_length_append rows _, by simp [save_query], ?_⟩
  cases op with
  | startup => cases file <;> simp [applyOp, logRows]
  | read => cases file <;> simp [applyOp, logRows]
  | save n c2 q2 a2 =>
      cases file <;>
        simp [applyOp, logRows, save_query, take_length_append]

/-- Claim C9: starting from an absent file, startup creates it with zero
rows; after one `save_query` with context `"policy_a.pdf"`, `load` returns
exactly that one row, the total-questions metric is 1 and the
unique-policies metric is 1. -/
theorem first_append_scenario (now : Nat) :
    applyOp none LogOp.startup = some [] ∧
    load (logRows (applyOp (applyOp none LogOp.startup)
        (LogOp.save now "policy_a.pdf" "What is leave policy?" "Answer text"))) =
      [⟨now, "policy_a.pdf", "What is leave policy?", "Answer text"⟩] ∧
    totalQuestions (logRows (applyOp (applyOp none LogOp.startup)
        (LogOp.save now "policy_a.pdf" "What is leave policy?" "Answer text"))) = 1 ∧
    uniquePolicies (logRows (applyOp (applyOp none LogOp.startup)
        (LogOp.save now "policy_a.pdf" "What is leave policy?" "Answer text"))) = 1 :=
  ⟨rfl, rfl, rfl, rfl⟩

/-- Claim C10: when an uploaded PDF is present it takes precedence over the
selected stored policy: the reader reads the uploaded stream and the logged
context is the uploaded file's name; only with no upload is the selected
stored file read and its name logged. -/
theorem upload_takes_precedence (u : UploadedFile) (selected : String) :
    chosen (some u) selected = some (Chosen.fromUpload u) ∧
    readerSource (some u) selected = PdfSource.uploadStream u ∧
    saveContext (some u) selected = u.name ∧
    readerSource none selected = PdfSource.storedFile ("policies/" ++ selected) ∧
    saveContext none selected = selected :=
  ⟨rfl, rfl, rfl, rfl, rfl⟩
